import Mathlib

/-!
Verification development for the silent token-acquisition engine of the
TestMSAL repository.

The repository ships two source files: the unit-test suite of the silent
flow client (`msal-common/test/client/SilentFlowClient.spec.ts`) and the
browser utility module (`msal-browser/src/utils/BrowserUtils.ts`).  The
silent-flow engine itself (credential store, cache matcher, orchestrator)
is not part of the sources, so it is modelled here from the specification;
`blockRedirectInIframe` is translated directly from `BrowserUtils.ts`.

Time is measured in epoch seconds as natural numbers; machine strings are
Lean `String`s; fallible operations return `Except`.
-/

/-- Modelled from the spec: the error taxonomy of §7 of the specification
(the silent-flow engine's source is not in the repository).  The refresh
collaborator's network/protocol failure is `networkError`, propagated
unmodified. -/
inductive SilentError where
  | noAccountInSilentRequest
  | emptyInputScopes
  | tokenRefreshRequired
  | authTimeNotFound
  | maxAgeTranspired
  | noTokensFound
  | networkError
deriving DecidableEq, Repr

/-- Modelled from the spec: the authentication scheme (`tokenType`
bearer/pop) of the access-token entity and of the request. -/
inductive AuthScheme where
  | bearer
  | pop
deriving DecidableEq, Repr

/-- Modelled from the spec: a claims request is the parsed JSON object of
the request's JSON-encoded claims string, given as a list of
(key, serialized-value) entries.  The empty-object claims string parses to
the empty entry list. -/
structure ClaimsRequest where
  entries : List (String × String)
deriving DecidableEq, Repr

/-- Insert an entry into a key-sorted entry list, keeping it sorted. -/
def insertByKey (kv : String × String) : List (String × String) → List (String × String)
  | [] => [kv]
  | x :: xs => if kv.1 ≤ x.1 then kv :: x :: xs else x :: insertByKey kv xs

/-- Sort claim entries by key (the stable key ordering of §9). -/
def sortEntriesByKey : List (String × String) → List (String × String)
  | [] => []
  | x :: xs => insertByKey x (sortEntriesByKey xs)

/-- Modelled from the spec: claims requests are canonicalized (stable key
ordering) and hashed; equality of hashes stands for equality of the
normalized claims requests, so the hash is modelled as the canonical
serialization itself. -/
def hashClaims (c : ClaimsRequest) : String :=
  String.join ((sortEntriesByKey c.entries).map (fun kv => kv.1 ++ ":" ++ kv.2 ++ ";"))

/-- Modelled from the spec: the caller-supplied account identity
(`homeAccountId`, issuer host, tenant id, local account id, username). -/
structure AccountInfo where
  homeAccountId : String
  environment : String
  tenantId : String
  localAccountId : String
  username : String
deriving DecidableEq, Repr

/-- Modelled from the spec: the silent-flow request of §6 (the optional
`claims` string is carried in parsed form, `maxAge` in seconds). -/
structure SilentFlowRequest where
  scopes : List String
  account : Option AccountInfo
  authority : String
  correlationId : String
  forceRefresh : Bool
  claims : Option ClaimsRequest
  maxAge : Option Nat
  authenticationScheme : AuthScheme
deriving DecidableEq, Repr

/-- Modelled from the spec: the stored Account entity, keyed by
(`homeAccountId`, `environment`). -/
structure AccountEntity where
  homeAccountId : String
  environment : String
  realm : String
  localAccountId : String
  username : String
deriving DecidableEq, Repr

/-- Modelled from the spec: the claims carried by a cached IdToken (the
entity tracks no expiry; validity is inferred from claims).  Only the
`auth_time` claim takes part in the orchestrator's rules. -/
structure IdTokenClaims where
  authTime : Option Nat
deriving DecidableEq, Repr

/-- Modelled from the spec: the stored IdToken credential; `secret` is the
signed token and `claims` its decoded payload. -/
structure IdTokenEntity where
  homeAccountId : String
  environment : String
  clientId : String
  realm : String
  secret : String
  claims : IdTokenClaims
deriving DecidableEq, Repr

/-- Modelled from the spec: the stored AccessToken credential with its
space-joined `target` scope string, `cachedAt`/`expiresOn`/`refreshOn`
timestamps (epoch seconds), token type and optional
`requestedClaimsHash`. -/
structure AccessTokenEntity where
  homeAccountId : String
  environment : String
  clientId : String
  realm : String
  secret : String
  target : String
  cachedAt : Nat
  expiresOn : Nat
  refreshOn : Option Nat
  tokenType : AuthScheme
  requestedClaimsHash : Option String
deriving DecidableEq, Repr

/-- Modelled from the spec: the stored RefreshToken credential (no expiry
tracked; used only for the network refresh). -/
structure RefreshTokenEntity where
  homeAccountId : String
  environment : String
  clientId : String
  realm : String
  secret : String
deriving DecidableEq, Repr

/-- Modelled from the spec: the Credential Store, a logical key→entity map
held here as one list per entity type (keys are derived from the identity
fields, see the key constructors below). -/
structure CredentialStore where
  accounts : List AccountEntity
  idTokens : List IdTokenEntity
  accessTokens : List AccessTokenEntity
  refreshTokens : List RefreshTokenEntity
deriving DecidableEq, Repr

/-- Deterministic store key of an Account entity. -/
def accountEntityKey (a : AccountEntity) : String :=
  a.homeAccountId ++ "-" ++ a.environment

/-- Deterministic store key of an IdToken entity. -/
def idTokenEntityKey (i : IdTokenEntity) : String :=
  i.homeAccountId ++ "-" ++ i.environment ++ "-idtoken-" ++ i.clientId ++ "-" ++ i.realm

/-- Printed tag of an authentication scheme, used in access-token keys. -/
def schemeTag : AuthScheme → String
  | .bearer => "bearer"
  | .pop => "pop"

/-- Deterministic store key of an AccessToken entity: per the invariant of
§3 there is at most one entity per (`homeAccountId`, `environment`,
`clientId`, `realm`, `target`, `requestedClaimsHash`, `tokenType`). -/
def accessTokenEntityKey (t : AccessTokenEntity) : String :=
  t.homeAccountId ++ "-" ++ t.environment ++ "-accesstoken-" ++ t.clientId ++ "-" ++
    t.realm ++ "-" ++ t.target ++ "-" ++ t.requestedClaimsHash.getD "" ++ "-" ++
    schemeTag t.tokenType

/-- Deterministic store key of a RefreshToken entity. -/
def refreshTokenEntityKey (r : RefreshTokenEntity) : String :=
  r.homeAccountId ++ "-" ++ r.environment ++ "-refreshtoken-" ++ r.clientId ++ "-" ++ r.realm

/-- Lower-case a string character by character. -/
def lowerString (s : String) : String :=
  String.mk (s.data.map Char.toLower)

/-- Split a character list on spaces (the split of `target` into its
scope list). -/
def splitCharsOnSpace : List Char → List (List Char)
  | [] => [[]]
  | c :: cs =>
    if c = ' ' then [] :: splitCharsOnSpace cs
    else
      match splitCharsOnSpace cs with
      | [] => [[c]]
      | h :: t => (c :: h) :: t

/-- Split a space-joined string into its component strings. -/
def splitOnSpaces (s : String) : List String :=
  (splitCharsOnSpace s.data).map String.mk

/-- Modelled from the spec: scope matching is a superset test, case- and
order-insensitive, between the requested scope set and the entity's
space-joined `target`. -/
def scopeSuperset (scopes : List String) (target : String) : Bool :=
  scopes.all (fun sc =>
    (splitOnSpaces target).any (fun t => decide (lowerString t = lowerString sc)))

/-- True when the request carries a claims field that parses to a
non-empty JSON object. -/
def claimsPresentNonempty (req : SilentFlowRequest) : Bool :=
  match req.claims with
  | none => false
  | some c => !c.entries.isEmpty

/-- Modelled from the spec: the claims-binding filter of §4.2 step 3.
Claims absent or the empty object impose no condition; a present non-empty
claims object rules out every entity when claims-based caching is
disabled, and otherwise admits exactly the entities whose
`requestedClaimsHash` equals the hash of the normalized claims request. -/
def claimsFilter (claimsBasedCachingEnabled : Bool) (req : SilentFlowRequest)
    (t : AccessTokenEntity) : Bool :=
  match req.claims with
  | none => true
  | some c =>
    if c.entries.isEmpty then true
    else if claimsBasedCachingEnabled then
      match t.requestedClaimsHash with
      | none => false
      | some h => decide (h = hashClaims c)
    else false

/-- Modelled from the spec: configuration of the engine (client id, the
claims-based-caching flag, and the expiry skew buffer in seconds). -/
structure Config where
  clientId : String
  claimsBasedCachingEnabled : Bool
  skewBufferSec : Nat
deriving DecidableEq, Repr

/-- Modelled from the spec: the identity-key part of the access-token
match of §4.2 step 3 — key fields aligned with the request plus the
scope-superset test. -/
def accessTokenKeyScopeFilter (cfg : Config) (acct : AccountInfo)
    (req : SilentFlowRequest) (t : AccessTokenEntity) : Bool :=
  decide (t.homeAccountId = acct.homeAccountId) &&
  decide (t.environment = acct.environment) &&
  decide (t.clientId = cfg.clientId) &&
  decide (t.realm = acct.tenantId) &&
  decide (t.tokenType = req.authenticationScheme) &&
  scopeSuperset req.scopes t.target

/-- Modelled from the spec: the full access-token candidate filter —
identity key, scope superset, and claims binding. -/
def accessTokenFilter (cfg : Config) (acct : AccountInfo)
    (req : SilentFlowRequest) (t : AccessTokenEntity) : Bool :=
  accessTokenKeyScopeFilter cfg acct req t &&
  claimsFilter cfg.claimsBasedCachingEnabled req t

/-- Modelled from the spec: resolve an AccessToken candidate from the
store (any one surviving match is acceptable; the model takes the first). -/
def getAccessToken (s : CredentialStore) (cfg : Config) (acct : AccountInfo)
    (req : SilentFlowRequest) : Option AccessTokenEntity :=
  s.accessTokens.find? (accessTokenFilter cfg acct req)

/-- Modelled from the spec: resolve the IdToken entity by
(`homeAccountId`, `environment`, `clientId`, `realm`); absence is
tolerated. -/
def getIdToken (s : CredentialStore) (cfg : Config) (acct : AccountInfo) :
    Option IdTokenEntity :=
  s.idTokens.find? (fun i =>
    decide (i.homeAccountId = acct.homeAccountId) &&
    decide (i.environment = acct.environment) &&
    decide (i.clientId = cfg.clientId) &&
    decide (i.realm = acct.tenantId))

/-- Modelled from the spec: resolve the RefreshToken entity by
(`homeAccountId`, `environment`, `clientId`, `realm`). -/
def getRefreshToken (s : CredentialStore) (cfg : Config) (acct : AccountInfo) :
    Option RefreshTokenEntity :=
  s.refreshTokens.find? (fun r =>
    decide (r.homeAccountId = acct.homeAccountId) &&
    decide (r.environment = acct.environment) &&
    decide (r.clientId = cfg.clientId) &&
    decide (r.realm = acct.tenantId))

/-- The `auth_time` claim of the resolved IdToken, when both exist. -/
def authTimeFrom (s : CredentialStore) (cfg : Config) (acct : AccountInfo) : Option Nat :=
  match getIdToken s cfg acct with
  | none => none
  | some idt => idt.claims.authTime

/-- Modelled from the spec: a token is expired when
`now ≥ expiresOn − skew-buffer` (over naturals this is
`expiresOn ≤ now + buffer`). -/
def isTokenExpired (expiresOn now buffer : Nat) : Bool :=
  decide (expiresOn ≤ now + buffer)

/-- Modelled from the spec: the clock was turned back when
`cachedAt > now` at read time. -/
def wasClockTurnedBack (cachedAt now : Nat) : Bool :=
  decide (now < cachedAt)

/-- Modelled from the spec: the result built from the resolved
Account/IdToken/AccessToken on a cache hit; its scope list is the cached
entity's full `target` split on spaces. -/
structure AuthResult where
  uniqueId : String
  tenantId : String
  scopes : List String
  account : AccountInfo
  idToken : String
  accessToken : String
  fromCache : Bool
deriving DecidableEq, Repr

/-- Build the cache-hit result from the resolved entities. -/
def buildCacheResult (acct : AccountInfo) (idt : Option IdTokenEntity)
    (t : AccessTokenEntity) : AuthResult :=
  { uniqueId := acct.localAccountId
    tenantId := acct.tenantId
    scopes := splitOnSpaces t.target
    account := acct
    idToken := (idt.map (fun i => i.secret)).getD ""
    accessToken := t.secret
    fromCache := true }

/-- Modelled from the spec: the telemetry marker returned next to a
cache-hit result; it records whether the soft `refreshOn` threshold had
already passed.  `acquireToken` consumes it to trigger the §4.3 step-8
background refresh through the external refresh collaborator. -/
structure TelemetryMarker where
  proactiveRefresh : Bool
deriving DecidableEq, Repr

/-- The CCS routing-hint credential type. -/
inductive CcsCredentialType where
  | homeAccountId
  | upn
deriving DecidableEq, Repr

/-- The CCS routing hint passed to the refresh collaborator. -/
structure CcsCredential where
  credential : String
  kind : CcsCredentialType
deriving DecidableEq, Repr

/-- Modelled from the spec: the refresh request handed to the refresh
collaborator — the original request fields plus the refresh token secret,
the request's authentication scheme and the CCS hint. -/
structure RefreshTokenRequest where
  scopes : List String
  authority : String
  correlationId : String
  forceRefresh : Bool
  claims : Option ClaimsRequest
  maxAge : Option Nat
  authenticationScheme : AuthScheme
  refreshToken : String
  ccsCredential : CcsCredential
deriving DecidableEq, Repr

/-- Construct the refresh request for the collaborator from the original
silent request, the account and the cached RefreshToken entity. -/
def buildRefreshRequest (req : SilentFlowRequest) (acct : AccountInfo)
    (rt : RefreshTokenEntity) : RefreshTokenRequest :=
  { scopes := req.scopes
    authority := req.authority
    correlationId := req.correlationId
    forceRefresh := req.forceRefresh
    claims := req.claims
    maxAge := req.maxAge
    authenticationScheme := req.authenticationScheme
    refreshToken := rt.secret
    ccsCredential := { credential := acct.homeAccountId, kind := .homeAccountId } }

/-- Modelled from the spec: a successful refresh yields a new credential
tuple (written back atomically as a group) together with the result the
caller receives. -/
structure RefreshResponse where
  account : AccountEntity
  idToken : IdTokenEntity
  accessToken : AccessTokenEntity
  refreshToken : RefreshTokenEntity
  result : AuthResult
deriving DecidableEq, Repr

/-- The refresh collaborator: consumes a refresh request and either
returns the new credential tuple or fails with an error propagated
unmodified. -/
def RefreshCollaborator : Type :=
  RefreshTokenRequest → Except SilentError RefreshResponse

/-- Overwrite the entity with an equal key when present, add the entity
otherwise; entities are never removed. -/
def upsertBy {α : Type} (key : α → String) (a : α) (l : List α) : List α :=
  if l.any (fun x => decide (key x = key a)) then
    l.map (fun x => if key x = key a then a else x)
  else a :: l

/-- Modelled from the spec: write the refreshed credential tuple back into
the store, overwriting per key and never deleting. -/
def writeBack (s : CredentialStore) (r : RefreshResponse) : CredentialStore :=
  { accounts := upsertBy accountEntityKey r.account s.accounts
    idTokens := upsertBy idTokenEntityKey r.idToken s.idTokens
    accessTokens := upsertBy accessTokenEntityKey r.accessToken s.accessTokens
    refreshTokens := upsertBy refreshTokenEntityKey r.refreshToken s.refreshTokens }

/-- The observable world around the engine: the shared Credential Store,
the telemetry cache-hit counter, and the log of refresh-collaborator
invocations. -/
structure World where
  store : CredentialStore
  cacheHits : Nat
  refreshCalls : List RefreshTokenRequest
deriving DecidableEq, Repr

/-- The telemetry marker of a cache hit: records whether the soft
`refreshOn` threshold had passed at read time. -/
def refreshOnMarker (now : Nat) (t : AccessTokenEntity) : TelemetryMarker :=
  { proactiveRefresh :=
      match t.refreshOn with
      | none => false
      | some r => decide (r ≤ now) }

/-- The pair returned on a cache hit: the telemetry counter is bumped and
the result is built from the resolved entities, next to its telemetry
marker. -/
def cacheHitPair (cfg : Config) (now : Nat) (acct : AccountInfo)
    (t : AccessTokenEntity) (w : World) :
    World × Except SilentError (AuthResult × TelemetryMarker) :=
  ({ w with cacheHits := w.cacheHits + 1 },
   .ok (buildCacheResult acct (getIdToken w.store cfg acct) t,
        refreshOnMarker now t))

/-- The orchestrator's behaviour once the request's account has been
resolved: steps 2–8 of §4.3 in precedence order. -/
def acquireCachedTokenAux (cfg : Config) (now : Nat) (req : SilentFlowRequest)
    (acct : AccountInfo) (w : World) :
    World × Except SilentError (AuthResult × TelemetryMarker) :=
  if req.scopes.isEmpty then (w, .error .emptyInputScopes)
  else if req.forceRefresh then (w, .error .tokenRefreshRequired)
  else
    match getAccessToken w.store cfg acct req with
    | none => (w, .error .tokenRefreshRequired)
    | some t =>
      if wasClockTurnedBack t.cachedAt now then (w, .error .tokenRefreshRequired)
      else if isTokenExpired t.expiresOn now cfg.skewBufferSec then
        (w, .error .tokenRefreshRequired)
      else
        match req.maxAge with
        | none => cacheHitPair cfg now acct t w
        | some m =>
          match authTimeFrom w.store cfg acct with
          | none => (w, .error .authTimeNotFound)
          | some a =>
            if m ≤ now - a then (w, .error .maxAgeTranspired)
            else cacheHitPair cfg now acct t w

/-- Modelled from the spec: `acquireCachedToken` — the Silent Flow
Orchestrator state machine of §4.3, evaluated in its precedence order:
no account, empty scopes, `forceRefresh`, no resolved AccessToken, clock
turned back, expiry, `maxAge`, cache hit.  It is read-only on the store;
a cache hit bumps the telemetry counter and returns the result with its
telemetry marker. -/
def acquireCachedToken (cfg : Config) (now : Nat) (req : SilentFlowRequest)
    (w : World) : World × Except SilentError (AuthResult × TelemetryMarker) :=
  match req.account with
  | none => (w, .error .noAccountInSilentRequest)
  | some acct => acquireCachedTokenAux cfg now req acct w

/-- The composition step of `acquireToken`, split out over the world and
outcome produced by the cached path.  On a cache hit whose telemetry
marker signals an elapsed `refreshOn` threshold, the §4.3 step-8
background refresh is fired through the external refresh collaborator:
the invocation is logged, a successful tuple is written back, a failure
is swallowed, and the still-valid cached result is returned either way.
On `TokenRefreshRequired` it invokes the collaborator with the
constructed refresh request and writes the returned tuple back on
success, fails with `NoTokensFound` when no RefreshToken was resolved,
and propagates every other failure unmodified. -/
def acquireTokenFrom (cfg : Config) (req : SilentFlowRequest)
    (collab : RefreshCollaborator) (w1 : World) :
    Except SilentError (AuthResult × TelemetryMarker) →
      World × Except SilentError AuthResult
  | .ok (res, mk) =>
    if mk.proactiveRefresh then
      match req.account with
      | none => (w1, .ok res)
      | some acct =>
        match getRefreshToken w1.store cfg acct with
        | none => (w1, .ok res)
        | some rt =>
          match collab (buildRefreshRequest req acct rt) with
          | .ok resp =>
            ({ w1 with
                refreshCalls := w1.refreshCalls ++ [buildRefreshRequest req acct rt],
                store := writeBack w1.store resp },
             .ok res)
          | .error _ =>
            ({ w1 with
                refreshCalls := w1.refreshCalls ++ [buildRefreshRequest req acct rt] },
             .ok res)
    else (w1, .ok res)
  | .error .tokenRefreshRequired =>
    match req.account with
    | none => (w1, .error .tokenRefreshRequired)
    | some acct =>
      match getRefreshToken w1.store cfg acct with
      | none => (w1, .error .noTokensFound)
      | some rt =>
        match collab (buildRefreshRequest req acct rt) with
        | .ok resp =>
          ({ w1 with
              refreshCalls := w1.refreshCalls ++ [buildRefreshRequest req acct rt],
              store := writeBack w1.store resp },
           .ok resp.result)
        | .error e =>
          ({ w1 with
              refreshCalls := w1.refreshCalls ++ [buildRefreshRequest req acct rt] },
           .error e)
  | .error e => (w1, .error e)

/-- Modelled from the spec: `acquireToken` composes `acquireCachedToken`
with the refresh collaborator per §4.3's `RefreshRequired` handling. -/
def acquireToken (cfg : Config) (now : Nat) (req : SilentFlowRequest)
    (collab : RefreshCollaborator) (w : World) :
    World × Except SilentError AuthResult :=
  acquireTokenFrom cfg req collab
    (acquireCachedToken cfg now req w).1 (acquireCachedToken cfg now req w).2

/-! ### Browser utilities, translated from `msal-browser/src/utils/BrowserUtils.ts` -/

/-- The browser auth error codes raised by the utilities of
`BrowserUtils.ts` (only the codes the translated functions use). -/
inductive BrowserAuthErrorCode where
  | redirectInIframe
  | blockIframeReload
  | blockNestedPopups
deriving DecidableEq, Repr

/-- The interaction type of a browser request (`InteractionType` from
`BrowserConstants`): redirect, popup, silent or none. -/
inductive InteractionType where
  | redirect
  | popup
  | silent
  | noInteraction
deriving DecidableEq, Repr

/-- The part of the browser window state the utilities read:
whether `window.parent` differs from `window`. -/
structure WindowState where
  parentDiffers : Bool
deriving DecidableEq, Repr

/-- From `BrowserUtils.ts` `isInIframe`: the current window is in an
iframe when `window.parent !== window`. -/
def isInIframe (w : WindowState) : Bool :=
  w.parentDiffers

/-- From `BrowserUtils.ts` `blockRedirectInIframe`: throw
`redirectInIframe` when the interaction type is Redirect, the app is
iframed, and redirects in iframes are not allowed; return normally
otherwise. -/
def blockRedirectInIframe (w : WindowState) (interactionType : InteractionType)
    (allowRedirectInIframe : Bool) : Except BrowserAuthErrorCode Unit :=
  let isIframedApp := isInIframe w
  if decide (interactionType = InteractionType.redirect) && isIframedApp &&
      !allowRedirectInIframe then
    .error .redirectInIframe
  else .ok ()

/-! ### Concrete fixtures, mirroring the spec's end-to-end scenario -/

deriving instance DecidableEq for Except

/-- Test configuration: claims-based caching disabled, 300s skew buffer. -/
def cfgW : Config :=
  { clientId := "test-client-id", claimsBasedCachingEnabled := false, skewBufferSec := 300 }

/-- Test account identity. -/
def acctW : AccountInfo :=
  { homeAccountId := "uid.utid", environment := "login.windows.net", tenantId := "tid",
    localAccountId := "oid", username := "user@contoso.com" }

/-- Test Account entity stored for `acctW`. -/
def acctEntityW : AccountEntity :=
  { homeAccountId := "uid.utid", environment := "login.windows.net", realm := "tid",
    localAccountId := "oid", username := "user@contoso.com" }

/-- Test IdToken entity, carrying an `auth_time` claim of 900. -/
def idtW : IdTokenEntity :=
  { homeAccountId := "uid.utid", environment := "login.windows.net",
    clientId := "test-client-id", realm := "tid", secret := "id-token-secret",
    claims := { authTime := some 900 } }

/-- Test AccessToken entity: target superset of the requested scopes,
cached ten seconds ago, expiring 3600 seconds from now (now = 1000). -/
def atW : AccessTokenEntity :=
  { homeAccountId := "uid.utid", environment := "login.windows.net",
    clientId := "test-client-id", realm := "tid", secret := "access-token-secret",
    target := "openid profile graphscope", cachedAt := 990, expiresOn := 4600,
    refreshOn := none, tokenType := .bearer, requestedClaimsHash := none }

/-- Test RefreshToken entity. -/
def rtW : RefreshTokenEntity :=
  { homeAccountId := "uid.utid", environment := "login.windows.net",
    clientId := "test-client-id", realm := "tid", secret := "refresh-token-secret" }

/-- Test store holding the four entities above. -/
def storeW : CredentialStore :=
  { accounts := [acctEntityW], idTokens := [idtW], accessTokens := [atW],
    refreshTokens := [rtW] }

/-- Test world around `storeW`, with no refresh calls logged. -/
def wW : World := { store := storeW, cacheHits := 0, refreshCalls := [] }

/-- The end-to-end silent request: scopes `[graphscope]`, no claims, no
maxAge, no forceRefresh. -/
def reqW : SilentFlowRequest :=
  { scopes := ["graphscope"], account := some acctW,
    authority := "https://login.microsoftonline.com/tid/",
    correlationId := "corr-id", forceRefresh := false, claims := none,
    maxAge := none, authenticationScheme := .bearer }

/-- The same request with the account missing. -/
def reqNoAccount : SilentFlowRequest :=
  { reqW with account := none, forceRefresh := true }

/-- A collaborator that always fails with a network error. -/
def collabFail : RefreshCollaborator := fun _ => .error .networkError

/-- An AccessToken entity cached in the future (clock turned back),
far-future expiry. -/
def atLate : AccessTokenEntity := { atW with cachedAt := 1100, expiresOn := 4600 }

/-- World whose store holds only the clock-skewed access token. -/
def wLate : World := { wW with store := { storeW with accessTokens := [atLate] } }

/-! ### Structural lemmas about the orchestrator -/

/-- `acquireCachedToken` either fails leaving the world untouched, or
returns a cache hit having bumped only the telemetry counter. -/
theorem acquireCachedToken_shape (cfg : Config) (now : Nat)
    (req : SilentFlowRequest) (w : World) :
    (∃ e, acquireCachedToken cfg now req w = (w, .error e)) ∨
    (∃ res mk, acquireCachedToken cfg now req w =
      ({ w with cacheHits := w.cacheHits + 1 }, .ok (res, mk))) := by
  unfold acquireCachedToken acquireCachedTokenAux cacheHitPair
  repeat' split
  all_goals first
    | exact Or.inl ⟨_, rfl⟩
    | exact Or.inr ⟨_, _, rfl⟩

/-- Reduce `acquireCachedToken` once the request's account is known. -/
theorem acquireCachedToken_account (cfg : Config) (now : Nat)
    (req : SilentFlowRequest) (w : World) (acct : AccountInfo)
    (hacct : req.account = some acct) :
    acquireCachedToken cfg now req w = acquireCachedTokenAux cfg now req acct w := by
  unfold acquireCachedToken
  rw [hacct]

/-- The store and the refresh-call log are never changed by
`acquireCachedToken`. -/
theorem acquireCachedToken_frame (cfg : Config) (now : Nat)
    (req : SilentFlowRequest) (w : World) :
    ((acquireCachedToken cfg now req w).1).store = w.store ∧
    ((acquireCachedToken cfg now req w).1).refreshCalls = w.refreshCalls := by
  rcases acquireCachedToken_shape cfg now req w with ⟨e, h⟩ | ⟨res, mk, h⟩ <;>
    rw [h]
  · exact ⟨rfl, rfl⟩
  · exact ⟨rfl, rfl⟩

/-- When `acquireCachedToken` fails, the whole world is returned
untouched. -/
theorem acquireCachedToken_error_eq (cfg : Config) (now : Nat)
    (req : SilentFlowRequest) (w : World) (e : SilentError)
    (h : (acquireCachedToken cfg now req w).2 = .error e) :
    acquireCachedToken cfg now req w = (w, .error e) := by
  rcases acquireCachedToken_shape cfg now req w with ⟨e', h'⟩ | ⟨res, mk, h'⟩
  · rw [h'] at h ⊢
    cases h
    rfl
  · rw [h'] at h
    cases h

/-- When `acquireCachedToken` succeeds, the returned world is the input
world with the telemetry counter bumped. -/
theorem acquireCachedToken_ok_eq (cfg : Config) (now : Nat)
    (req : SilentFlowRequest) (w : World) (res : AuthResult) (mk : TelemetryMarker)
    (h : (acquireCachedToken cfg now req w).2 = .ok (res, mk)) :
    acquireCachedToken cfg now req w =
      ({ w with cacheHits := w.cacheHits + 1 }, .ok (res, mk)) := by
  rcases acquireCachedToken_shape cfg now req w with ⟨e', h'⟩ | ⟨res', mk', h'⟩
  · rw [h'] at h
    cases h
  · rw [h'] at h ⊢
    cases h
    rfl

/-- A key-indexed presence-preservation relation between entity lists:
every key present on the left is still present on the right. -/
def keyPreserved {α : Type} (key : α → String) (l l' : List α) : Prop :=
  ∀ x ∈ l, ∃ y ∈ l', key y = key x

/-- Presence preservation across the whole Credential Store. -/
def storePreserves (s s' : CredentialStore) : Prop :=
  keyPreserved accountEntityKey s.accounts s'.accounts ∧
  keyPreserved idTokenEntityKey s.idTokens s'.idTokens ∧
  keyPreserved accessTokenEntityKey s.accessTokens s'.accessTokens ∧
  keyPreserved refreshTokenEntityKey s.refreshTokens s'.refreshTokens

theorem keyPreserved_refl {α : Type} (key : α → String) (l : List α) :
    keyPreserved key l l :=
  fun x hx => ⟨x, hx, rfl⟩

theorem storePreserves_refl (s : CredentialStore) : storePreserves s s :=
  ⟨keyPreserved_refl _ _, keyPreserved_refl _ _, keyPreserved_refl _ _,
   keyPreserved_refl _ _⟩

/-- `upsertBy` overwrites or adds, so every key present before is present
after. -/
theorem upsertBy_keyPreserved {α : Type} (key : α → String) (a : α) (l : List α) :
    keyPreserved key l (upsertBy key a l) := by
  intro x hx
  unfold upsertBy
  by_cases h : l.any (fun z => decide (key z = key a)) = true
  · rw [if_pos h]
    by_cases hk : key x = key a
    · exact ⟨a, List.mem_map.mpr ⟨x, hx, by rw [if_pos hk]⟩, hk.symm⟩
    · exact ⟨x, List.mem_map.mpr ⟨x, hx, by rw [if_neg hk]⟩, rfl⟩
  · rw [if_neg h]
    exact ⟨x, List.mem_cons_of_mem _ hx, rfl⟩

/-- The write-back of a refreshed credential tuple preserves the presence
of every entity key. -/
theorem writeBack_preserves (s : CredentialStore) (r : RefreshResponse) :
    storePreserves s (writeBack s r) :=
  ⟨upsertBy_keyPreserved _ _ _, upsertBy_keyPreserved _ _ _,
   upsertBy_keyPreserved _ _ _, upsertBy_keyPreserved _ _ _⟩

/-- `acquireTokenFrom` either keeps the store intact or writes a refreshed
tuple back; either way every entity key present before is present after. -/
theorem acquireTokenFrom_storePreserves (cfg : Config) (req : SilentFlowRequest)
    (collab : RefreshCollaborator) (w1 : World)
    (c : Except SilentError (AuthResult × TelemetryMarker)) :
    storePreserves w1.store ((acquireTokenFrom cfg req collab w1 c).1).store := by
  unfold acquireTokenFrom
  repeat' split
  all_goals first
    | exact storePreserves_refl _
    | exact writeBack_preserves _ _

/-- On a cache hit whose telemetry marker shows the `refreshOn` threshold
has not passed, the composition step fires no background refresh: it
returns the cached result and the world unchanged. -/
theorem acquireTokenFrom_ok_noProactive (cfg : Config) (req : SilentFlowRequest)
    (collab : RefreshCollaborator) (w1 : World) (res : AuthResult)
    (mk : TelemetryMarker) (hmk : mk.proactiveRefresh = false) :
    acquireTokenFrom cfg req collab w1 (.ok (res, mk)) = (w1, .ok res) := by
  unfold acquireTokenFrom
  dsimp only
  rw [hmk]
  rfl

/-- `acquireToken` only ever adds or overwrites store entities (via the
write-back of a successful refresh); it never removes one. -/
theorem acquireToken_storePreserves (cfg : Config) (now : Nat)
    (req : SilentFlowRequest) (collab : RefreshCollaborator) (w : World) :
    storePreserves w.store ((acquireToken cfg now req collab w).1).store := by
  have hframe := (acquireCachedToken_frame cfg now req w).1
  unfold acquireToken
  rw [← hframe]
  exact acquireTokenFrom_storePreserves cfg req collab _ _

/-! ### Claim C10 -/

/-- Claim C10: `blockRedirectInIframe` throws the `redirectInIframe`
browser auth error iff the interaction type is Redirect, the current
window is inside an iframe, and `allowRedirectInIframe` is false; in every
other combination of inputs it returns normally. -/
theorem C10_theorem (w : WindowState) (it : InteractionType) (allow : Bool) :
    (blockRedirectInIframe w it allow = .error .redirectInIframe ↔
      (it = .redirect ∧ isInIframe w = true ∧ allow = false)) ∧
    (blockRedirectInIframe w it allow = .ok () ↔
      ¬(it = .redirect ∧ isInIframe w = true ∧ allow = false)) := by
  obtain ⟨p⟩ := w
  cases p <;> cases it <;> cases allow <;> decide

/-! ### Claim C5 -/

/-- Claim C5 counterexample: the claim quantifies over every request with
`forceRefresh = true`, but a request with no account fails with
`NoAccountInSilentRequest`, not `TokenRefreshRequired`, even while the
cache holds a fully valid unexpired access token. -/
theorem C5_counterexample :
    reqNoAccount.forceRefresh = true ∧
    isTokenExpired atW.expiresOn 1000 cfgW.skewBufferSec = false ∧
    getAccessToken wW.store cfgW acctW { reqNoAccount with account := some acctW }
      = some atW ∧
    (acquireCachedToken cfgW 1000 reqNoAccount wW).2
      = .error .noAccountInSilentRequest ∧
    (acquireCachedToken cfgW 1000 reqNoAccount wW).2
      ≠ .error .tokenRefreshRequired := by
  refine ⟨rfl, rfl, by decide, rfl, by decide⟩

/-- Claim C5 (amended): for every request that passes request validation
(an account is present and the scopes are non-empty), `forceRefresh = true`
makes `acquireCachedToken` fail with `TokenRefreshRequired`, whatever the
cache holds. -/
theorem C5_theorem (cfg : Config) (now : Nat) (req : SilentFlowRequest)
    (w : World) (acct : AccountInfo)
    (hacct : req.account = some acct)
    (hscopes : req.scopes.isEmpty = false)
    (hforce : req.forceRefresh = true) :
    (acquireCachedToken cfg now req w).2 = .error .tokenRefreshRequired := by
  rw [acquireCachedToken_account cfg now req w acct hacct]
  unfold acquireCachedTokenAux
  simp [hscopes, hforce]

/-- Claim C5 witness: a concrete forced-refresh request over a fully valid
cached token is refused with `TokenRefreshRequired`. -/
theorem C5_witness :
    (acquireCachedToken cfgW 1000 { reqW with forceRefresh := true } wW).2
      = .error .tokenRefreshRequired :=
  C5_theorem cfgW 1000 { reqW with forceRefresh := true } wW acctW rfl rfl rfl

/-! ### Claim C6 -/

/-- Claim C6: whenever the resolved cached access token was cached after
the current time (the clock was turned back), `acquireCachedToken` fails
with `TokenRefreshRequired`, however far in the future `expiresOn` lies
and whatever `forceRefresh` is. -/
theorem C6_theorem (cfg : Config) (now : Nat) (req : SilentFlowRequest)
    (w : World) (acct : AccountInfo) (t : AccessTokenEntity)
    (hacct : req.account = some acct)
    (hscopes : req.scopes.isEmpty = false)
    (hat : getAccessToken w.store cfg acct req = some t)
    (hclock : now < t.cachedAt) :
    (acquireCachedToken cfg now req w).2 = .error .tokenRefreshRequired := by
  rw [acquireCachedToken_account cfg now req w acct hacct]
  unfold acquireCachedTokenAux
  cases hforce : req.forceRefresh with
  | true => simp [hscopes, hforce]
  | false => simp [hscopes, hforce, hat, wasClockTurnedBack, hclock]

/-- Claim C6 witness: a token cached at 1100 while the clock reads 1000 is
refused with `TokenRefreshRequired` even though it expires only at 4600. -/
theorem C6_witness :
    (acquireCachedToken cfgW 1000 reqW wLate).2 = .error .tokenRefreshRequired :=
  C6_theorem cfgW 1000 reqW wLate acctW atLate rfl rfl (by decide) (by decide)

/-! ### Claim C7 -/

/-- Claim C7: a request without an account makes both `acquireToken` and
`acquireCachedToken` fail with `NoAccountInSilentRequest`, with the world
(and in particular the Credential Store) returned untouched, uniformly in
the store contents — the store is never consulted. -/
theorem C7_theorem (cfg : Config) (now : Nat) (req : SilentFlowRequest)
    (collab : RefreshCollaborator) (w : World)
    (hacct : req.account = none) :
    acquireCachedToken cfg now req w = (w, .error .noAccountInSilentRequest) ∧
    acquireToken cfg now req collab w = (w, .error .noAccountInSilentRequest) := by
  have h1 : acquireCachedToken cfg now req w = (w, .error .noAccountInSilentRequest) := by
    unfold acquireCachedToken
    rw [hacct]
  refine ⟨h1, ?_⟩
  unfold acquireToken
  rw [h1]
  rfl

/-- Claim C7 witness: the concrete account-less request fails with
`NoAccountInSilentRequest` on both entry points, leaving the world as it
was. -/
theorem C7_witness :
    acquireCachedToken cfgW 1000 reqNoAccount wW
      = (wW, .error .noAccountInSilentRequest) ∧
    acquireToken cfgW 1000 reqNoAccount collabFail wW
      = (wW, .error .noAccountInSilentRequest) :=
  C7_theorem cfgW 1000 reqNoAccount collabFail wW rfl

/-- The success path of the orchestrator: with an account, non-empty
scopes, no forced refresh, a resolved access token that is neither
clock-skewed nor expired, and no `maxAge` constraint, the call is a cache
hit. -/
theorem acquireCachedToken_hit (cfg : Config) (now : Nat) (req : SilentFlowRequest)
    (w : World) (acct : AccountInfo) (t : AccessTokenEntity)
    (hacct : req.account = some acct)
    (hscopes : req.scopes.isEmpty = false)
    (hforce : req.forceRefresh = false)
    (hat : getAccessToken w.store cfg acct req = some t)
    (hclock : t.cachedAt ≤ now)
    (hexp : isTokenExpired t.expiresOn now cfg.skewBufferSec = false)
    (hmax : req.maxAge = none) :
    acquireCachedToken cfg now req w = cacheHitPair cfg now acct t w := by
  have hcb : wasClockTurnedBack t.cachedAt now = false := by
    simp only [wasClockTurnedBack, decide_eq_false_iff_not, Nat.not_lt]
    exact hclock
  rw [acquireCachedToken_account cfg now req w acct hacct]
  unfold acquireCachedTokenAux
  simp [hscopes, hforce, hat, hcb, hexp, hmax]

/-- A cache hit presupposes that the matcher resolved an access token, and
the result is built from it. -/
theorem acquireCachedToken_ok_resolves (cfg : Config) (now : Nat)
    (req : SilentFlowRequest) (w : World) (acct : AccountInfo)
    (res : AuthResult) (mk : TelemetryMarker)
    (hacct : req.account = some acct)
    (h : (acquireCachedToken cfg now req w).2 = .ok (res, mk)) :
    ∃ t, getAccessToken w.store cfg acct req = some t ∧
      res = buildCacheResult acct (getIdToken w.store cfg acct) t := by
  rw [acquireCachedToken_account cfg now req w acct hacct] at h
  unfold acquireCachedTokenAux at h
  repeat' split at h
  all_goals dsimp only [cacheHitPair] at h
  all_goals first
    | exact Except.noConfusion h
    | ( injection h with h2
        injection h2 with h3 h4
        exact ⟨_, by assumption, h3.symm⟩ )

/-! ### Claim C1 -/

/-- The end-to-end access token with an already-elapsed soft `refreshOn`
threshold (500 < now = 1000), otherwise fully valid. -/
def atRO : AccessTokenEntity := { atW with refreshOn := some 500 }

/-- World whose store holds the elapsed-`refreshOn` access token. -/
def wRO : World := { wW with store := { storeW with accessTokens := [atRO] } }

/-- Claim C1 counterexample, in two scenarios that each satisfy every
hypothesis of the claim — an account, non-empty scopes, no forced
refresh, no claims, no maxAge, a resolved cached access token whose
target is a superset of the requested scopes, and the token not expired.
First, with the token cached after the current time (`cachedAt = 1100 >
now = 1000`) `acquireCachedToken` fails with `TokenRefreshRequired`
instead of returning the promised cache hit.  Second, with the token's
soft `refreshOn` threshold elapsed (500 ≤ now = 1000) `acquireToken`
returns the cache hit but fires the §4.3 step-8 background refresh, so
the refresh collaborator is invoked, contrary to the claim's `never
invoked` conjunct. -/
theorem C1_counterexample :
    (reqW.account = some acctW ∧
     reqW.scopes.isEmpty = false ∧
     reqW.forceRefresh = false ∧
     reqW.claims = none ∧
     reqW.maxAge = none ∧
     getAccessToken wLate.store cfgW acctW reqW = some atLate ∧
     scopeSuperset reqW.scopes atLate.target = true ∧
     isTokenExpired atLate.expiresOn 1000 cfgW.skewBufferSec = false ∧
     (acquireCachedToken cfgW 1000 reqW wLate).2 = .error .tokenRefreshRequired ∧
     ¬ ∃ res mk, (acquireCachedToken cfgW 1000 reqW wLate).2 = .ok (res, mk)) ∧
    (getAccessToken wRO.store cfgW acctW reqW = some atRO ∧
     scopeSuperset reqW.scopes atRO.target = true ∧
     isTokenExpired atRO.expiresOn 1000 cfgW.skewBufferSec = false ∧
     atRO.cachedAt ≤ 1000 ∧
     (acquireToken cfgW 1000 reqW collabFail wRO).2 =
       .ok (buildCacheResult acctW (getIdToken wRO.store cfgW acctW) atRO) ∧
     ((acquireToken cfgW 1000 reqW collabFail wRO).1).refreshCalls
       = [buildRefreshRequest reqW acctW rtW]) := by
  refine ⟨⟨rfl, rfl, rfl, rfl, rfl, by decide, by decide, rfl, by decide, ?_⟩,
    by decide, by decide, rfl, by decide, by decide, by decide⟩
  rw [show (acquireCachedToken cfgW 1000 reqW wLate).2
      = .error .tokenRefreshRequired from by decide]
  rintro ⟨res, mk, hok⟩
  exact Except.noConfusion hok

/-- Claim C1 (amended): for every silent-flow request with an account,
non-empty scopes, `forceRefresh = false`, no claims and no maxAge, and a
resolved cached access token whose `cachedAt` does not lie in the future
and whose soft `refreshOn` threshold, if any, has not yet passed:
if the token is expired (`now ≥ expiresOn − skew buffer`) then
`acquireCachedToken` fails with `TokenRefreshRequired`; if it is not
expired then `acquireCachedToken` (and `acquireToken`) return a cache-hit
result whose `accessToken` is the cached entity's secret and whose scope
list is the entity's full target split on spaces, and the refresh
collaborator is never invoked. -/
theorem C1_theorem (cfg : Config) (now : Nat) (req : SilentFlowRequest)
    (w : World) (collab : RefreshCollaborator) (acct : AccountInfo)
    (t : AccessTokenEntity)
    (hacct : req.account = some acct)
    (hscopes : req.scopes.isEmpty = false)
    (hforce : req.forceRefresh = false)
    (hclaims : req.claims = none)
    (hmax : req.maxAge = none)
    (hat : getAccessToken w.store cfg acct req = some t)
    (hclock : t.cachedAt ≤ now)
    (hro : t.refreshOn = none ∨ ∃ r, t.refreshOn = some r ∧ now < r) :
    (isTokenExpired t.expiresOn now cfg.skewBufferSec = true →
      (acquireCachedToken cfg now req w).2 = .error .tokenRefreshRequired) ∧
    (isTokenExpired t.expiresOn now cfg.skewBufferSec = false →
      (∃ mk, (acquireCachedToken cfg now req w).2 =
          .ok (buildCacheResult acct (getIdToken w.store cfg acct) t, mk)) ∧
      (buildCacheResult acct (getIdToken w.store cfg acct) t).accessToken
          = t.secret ∧
      (buildCacheResult acct (getIdToken w.store cfg acct) t).scopes
          = splitOnSpaces t.target ∧
      ((acquireCachedToken cfg now req w).1).refreshCalls = w.refreshCalls ∧
      (acquireToken cfg now req collab w).2 =
          .ok (buildCacheResult acct (getIdToken w.store cfg acct) t) ∧
      ((acquireToken cfg now req collab w).1).refreshCalls = w.refreshCalls) := by
  constructor
  · intro hexp
    have hcb : wasClockTurnedBack t.cachedAt now = false := by
      simp only [wasClockTurnedBack, decide_eq_false_iff_not, Nat.not_lt]
      exact hclock
    rw [acquireCachedToken_account cfg now req w acct hacct]
    unfold acquireCachedTokenAux
    simp [hscopes, hforce, hat, hcb, hexp]
  · intro hexp
    have hh := acquireCachedToken_hit cfg now req w acct t hacct hscopes hforce
      hat hclock hexp hmax
    have hmk : (refreshOnMarker now t).proactiveRefresh = false := by
      rcases hro with h | ⟨r, hr, hlt⟩
      · simp [refreshOnMarker, h]
      · simp [refreshOnMarker, hr, Nat.not_le.mpr hlt]
    refine ⟨⟨refreshOnMarker now t, by rw [hh]; rfl⟩, rfl, rfl, by rw [hh]; rfl,
      ?_, ?_⟩
    · unfold acquireToken
      rw [hh, show (cacheHitPair cfg now acct t w).2
            = Except.ok (buildCacheResult acct (getIdToken w.store cfg acct) t,
                refreshOnMarker now t) from rfl,
        acquireTokenFrom_ok_noProactive cfg req collab _ _ _ hmk]
    · unfold acquireToken
      rw [hh, show (cacheHitPair cfg now acct t w).2
            = Except.ok (buildCacheResult acct (getIdToken w.store cfg acct) t,
                refreshOnMarker now t) from rfl,
        acquireTokenFrom_ok_noProactive cfg req collab _ _ _ hmk]
      rfl

/-- Claim C1 witness: the end-to-end scenario — cached target
`openid profile graphscope`, request scope `graphscope`, unexpired,
cached in the past — yields the cache hit on both entry points with no
refresh call. -/
theorem C1_witness :
    (∃ mk, (acquireCachedToken cfgW 1000 reqW wW).2 =
        .ok (buildCacheResult acctW (getIdToken wW.store cfgW acctW) atW, mk)) ∧
    (acquireToken cfgW 1000 reqW collabFail wW).2 =
        .ok (buildCacheResult acctW (getIdToken wW.store cfgW acctW) atW) ∧
    ((acquireToken cfgW 1000 reqW collabFail wW).1).refreshCalls = [] := by
  have h := (C1_theorem cfgW 1000 reqW wW collabFail acctW atW rfl rfl rfl rfl rfl
      (by decide) (by decide) (Or.inl rfl)).2 rfl
  exact ⟨h.1, h.2.2.2.2.1, h.2.2.2.2.2.trans rfl⟩

/-! ### Claim C2 -/

/-- The end-to-end request carrying the empty-object claims value. -/
def reqCE : SilentFlowRequest := { reqW with claims := some ⟨[]⟩ }

/-- Claim C2: with claims-based caching disabled and an otherwise fully
valid cached access token (identity-and-scope match, cached in the past,
unexpired, no forced refresh, no maxAge), `acquireCachedToken` fails with
`TokenRefreshRequired` iff the request's claims field is present and is a
non-empty object; the empty-object claims value yields the cache hit. -/
theorem C2_theorem (cfg : Config) (now : Nat) (req : SilentFlowRequest)
    (w : World) (acct : AccountInfo) (t : AccessTokenEntity)
    (hcbc : cfg.claimsBasedCachingEnabled = false)
    (hacct : req.account = some acct)
    (hscopes : req.scopes.isEmpty = false)
    (hforce : req.forceRefresh = false)
    (hmax : req.maxAge = none)
    (hks : accessTokenKeyScopeFilter cfg acct req t = true)
    (hstore : w.store.accessTokens = [t])
    (hclock : t.cachedAt ≤ now)
    (hexp : isTokenExpired t.expiresOn now cfg.skewBufferSec = false) :
    ((acquireCachedToken cfg now req w).2 = .error .tokenRefreshRequired ↔
      claimsPresentNonempty req = true) ∧
    (req.claims = some ⟨[]⟩ →
      ∃ mk, (acquireCachedToken cfg now req w).2 =
        .ok (buildCacheResult acct (getIdToken w.store cfg acct) t, mk)) := by
  have hfind : claimsFilter cfg.claimsBasedCachingEnabled req t = true →
      getAccessToken w.store cfg acct req = some t := by
    intro hcf
    have hft : accessTokenFilter cfg acct req t = true := by
      unfold accessTokenFilter
      rw [hks, hcf]
      rfl
    unfold getAccessToken
    rw [hstore]
    rw [List.find?_cons_of_pos _ hft]
  constructor
  · cases hc : req.claims with
    | none =>
      have hcf : claimsFilter cfg.claimsBasedCachingEnabled req t = true := by
        simp [claimsFilter, hc]
      have hh := acquireCachedToken_hit cfg now req w acct t hacct hscopes hforce
        (hfind hcf) hclock hexp hmax
      constructor
      · intro herr
        rw [hh] at herr
        simp [cacheHitPair] at herr
      · intro hcp
        unfold claimsPresentNonempty at hcp
        rw [hc] at hcp
        simp at hcp
    | some c =>
      cases hie : c.entries.isEmpty with
      | true =>
        have hcf : claimsFilter cfg.claimsBasedCachingEnabled req t = true := by
          simp [claimsFilter, hc, hie]
        have hh := acquireCachedToken_hit cfg now req w acct t hacct hscopes hforce
          (hfind hcf) hclock hexp hmax
        constructor
        · intro herr
          rw [hh] at herr
          simp [cacheHitPair] at herr
        · intro hcp
          unfold claimsPresentNonempty at hcp
          rw [hc] at hcp
          simp [hie] at hcp
      | false =>
        have hf : accessTokenFilter cfg acct req t = false := by
          unfold accessTokenFilter claimsFilter
          rw [hc, hcbc]
          simp [hie]
        have hnone : getAccessToken w.store cfg acct req = none := by
          unfold getAccessToken
          rw [hstore, List.find?_cons_of_neg]
          · rfl
          · simp [hf]
        constructor
        · intro _
          unfold claimsPresentNonempty
          rw [hc]
          simp [hie]
        · intro _
          rw [acquireCachedToken_account cfg now req w acct hacct]
          unfold acquireCachedTokenAux
          simp [hscopes, hforce, hnone]
  · intro hce
    have hcf : claimsFilter cfg.claimsBasedCachingEnabled req t = true := by
      simp [claimsFilter, hce]
    have hh := acquireCachedToken_hit cfg now req w acct t hacct hscopes hforce
      (hfind hcf) hclock hexp hmax
    exact ⟨refreshOnMarker now t, by rw [hh]; rfl⟩

/-- Claim C2 witness: the empty-object claims request is a cache hit (and
therefore not a `TokenRefreshRequired` failure) on the concrete store. -/
theorem C2_witness :
    ((acquireCachedToken cfgW 1000 reqCE wW).2 = .error .tokenRefreshRequired ↔
      claimsPresentNonempty reqCE = true) ∧
    (∃ mk, (acquireCachedToken cfgW 1000 reqCE wW).2 =
      .ok (buildCacheResult acctW (getIdToken wW.store cfgW acctW) atW, mk)) := by
  have h := C2_theorem cfgW 1000 reqCE wW acctW atW rfl rfl rfl rfl rfl
    (by decide) rfl (by decide) rfl
  exact ⟨h.1, h.2 rfl⟩

/-! ### Claim C3 -/

/-- Configuration with claims-based caching enabled. -/
def cfgC3 : Config := { cfgW with claimsBasedCachingEnabled := true }

/-- A non-empty claims request. -/
def cC3 : ClaimsRequest := ⟨[("access_token", "xms_cc cp1")]⟩

/-- The cached access token bound to the hash of `cC3`. -/
def atC3 : AccessTokenEntity := { atW with requestedClaimsHash := some (hashClaims cC3) }

/-- The request carrying the non-empty claims object. -/
def reqC3 : SilentFlowRequest := { reqW with claims := some cC3 }

/-- World whose store holds the claims-bound access token. -/
def wC3 : World := { wW with store := { storeW with accessTokens := [atC3] } }

/-- Claim C3: with claims-based caching enabled and a present non-empty
claims object, only entries whose `requestedClaimsHash` equals the hash of
the normalized claims request can satisfy the matcher or produce a cache
hit; an entry with an absent or different hash never satisfies it. -/
theorem C3_theorem (cfg : Config) (req : SilentFlowRequest) (acct : AccountInfo)
    (c : ClaimsRequest)
    (hcbc : cfg.claimsBasedCachingEnabled = true)
    (hclaims : req.claims = some c)
    (hne : c.entries.isEmpty = false) :
    (∀ t, accessTokenFilter cfg acct req t = true →
      t.requestedClaimsHash = some (hashClaims c)) ∧
    (∀ t, t.requestedClaimsHash = none → accessTokenFilter cfg acct req t = false) ∧
    (∀ s t, getAccessToken s cfg acct req = some t →
      t.requestedClaimsHash = some (hashClaims c)) ∧
    (∀ now w res mk, req.account = some acct →
      (acquireCachedToken cfg now req w).2 = .ok (res, mk) →
      ∃ t, getAccessToken w.store cfg acct req = some t ∧
        t.requestedClaimsHash = some (hashClaims c)) := by
  have key : ∀ t : AccessTokenEntity, accessTokenFilter cfg acct req t = true →
      t.requestedClaimsHash = some (hashClaims c) := by
    intro t hf
    simp only [accessTokenFilter, Bool.and_eq_true] at hf
    have hcf : claimsFilter cfg.claimsBasedCachingEnabled req t = true := hf.2
    unfold claimsFilter at hcf
    rw [hclaims, hcbc] at hcf
    simp only [hne] at hcf
    cases hr : t.requestedClaimsHash with
    | none =>
      rw [hr] at hcf
      simp at hcf
    | some hsh =>
      rw [hr] at hcf
      simp at hcf
      rw [hcf]
  refine ⟨key, ?_, ?_, ?_⟩
  · intro t hnone
    cases hft : accessTokenFilter cfg acct req t with
    | false => rfl
    | true =>
      have h2 := key t hft
      rw [hnone] at h2
      exact Option.noConfusion h2
  · intro s t hfind
    exact key t (List.find?_some hfind)
  · intro now w res mk hacct hok
    obtain ⟨t, ht, _⟩ :=
      acquireCachedToken_ok_resolves cfg now req w acct res mk hacct hok
    exact ⟨t, ht, key t (List.find?_some ht)⟩

/-- Claim C3 witness: the concrete claims-bound token with the matching
hash is resolved, and its hash is forced to equal the request's. -/
theorem C3_witness :
    getAccessToken wC3.store cfgC3 acctW reqC3 = some atC3 ∧
    atC3.requestedClaimsHash = some (hashClaims cC3) := by
  have h := C3_theorem cfgC3 reqC3 acctW cC3 rfl rfl rfl
  exact ⟨by decide, h.2.2.1 wC3.store atC3 (by decide)⟩

/-! ### Claim C4 -/

/-- IdToken entity whose claims lack `auth_time`. -/
def idtNoAuth : IdTokenEntity := { idtW with claims := { authTime := none } }

/-- World whose store holds the id token without `auth_time`. -/
def wNoAuth : World := { wW with store := { storeW with idTokens := [idtNoAuth] } }

/-- Claim C4: on a request with a `maxAge` constraint over an otherwise
valid cached token, a missing `auth_time` claim fails with
`AuthTimeNotFound`; otherwise `now − auth_time ≥ maxAge` (so any `maxAge =
0`) fails with `MaxAgeTranspired`, and a fresh-enough `auth_time` yields
the cache hit. -/
theorem C4_theorem (cfg : Config) (now : Nat) (req : SilentFlowRequest)
    (w : World) (acct : AccountInfo) (t : AccessTokenEntity) (m : Nat)
    (hacct : req.account = some acct)
    (hscopes : req.scopes.isEmpty = false)
    (hforce : req.forceRefresh = false)
    (hmax : req.maxAge = some m)
    (hat : getAccessToken w.store cfg acct req = some t)
    (hclock : t.cachedAt ≤ now)
    (hexp : isTokenExpired t.expiresOn now cfg.skewBufferSec = false) :
    (authTimeFrom w.store cfg acct = none →
      (acquireCachedToken cfg now req w).2 = .error .authTimeNotFound) ∧
    (∀ a, authTimeFrom w.store cfg acct = some a →
      (m ≤ now - a →
        (acquireCachedToken cfg now req w).2 = .error .maxAgeTranspired) ∧
      (now - a < m →
        (acquireCachedToken cfg now req w).2 =
          .ok (buildCacheResult acct (getIdToken w.store cfg acct) t,
               refreshOnMarker now t))) := by
  have hcb : wasClockTurnedBack t.cachedAt now = false := by
    simp only [wasClockTurnedBack, decide_eq_false_iff_not, Nat.not_lt]
    exact hclock
  constructor
  · intro hauth
    rw [acquireCachedToken_account cfg now req w acct hacct]
    unfold acquireCachedTokenAux
    simp [hscopes, hforce, hat, hcb, hexp, hmax, hauth]
  · intro a hauth
    constructor
    · intro hle
      rw [acquireCachedToken_account cfg now req w acct hacct]
      unfold acquireCachedTokenAux
      simp [hscopes, hforce, hat, hcb, hexp, hmax, hauth, hle]
    · intro hlt
      have h2 : ¬ m ≤ now - a := Nat.not_le.mpr hlt
      rw [acquireCachedToken_account cfg now req w acct hacct]
      unfold acquireCachedTokenAux
      simp [hscopes, hforce, hat, hcb, hexp, hmax, hauth, h2, cacheHitPair]

/-- Claim C4 witness: with `auth_time = 900` and `now = 1000`, a
`maxAge = 50` request fails with `MaxAgeTranspired`, a `maxAge = 200`
request is a cache hit, and a store without `auth_time` fails with
`AuthTimeNotFound`. -/
theorem C4_witness :
    (acquireCachedToken cfgW 1000 { reqW with maxAge := some 50 } wW).2
      = .error .maxAgeTranspired ∧
    (acquireCachedToken cfgW 1000 { reqW with maxAge := some 200 } wW).2
      = .ok (buildCacheResult acctW (getIdToken wW.store cfgW acctW) atW,
             refreshOnMarker 1000 atW) ∧
    (acquireCachedToken cfgW 1000 { reqW with maxAge := some 50 } wNoAuth).2
      = .error .authTimeNotFound := by
  refine ⟨?_, ?_, ?_⟩
  · exact ((C4_theorem cfgW 1000 { reqW with maxAge := some 50 } wW acctW atW 50
      rfl rfl rfl rfl (by decide) (by decide) rfl).2 900 (by decide)).1 (by decide)
  · exact ((C4_theorem cfgW 1000 { reqW with maxAge := some 200 } wW acctW atW 200
      rfl rfl rfl rfl (by decide) (by decide) rfl).2 900 (by decide)).2 (by decide)
  · exact (C4_theorem cfgW 1000 { reqW with maxAge := some 50 } wNoAuth acctW atW 50
      rfl rfl rfl rfl (by decide) (by decide) rfl).1 (by decide)

/-! ### Claim C8 -/

/-- Claim C8: whenever the cached path of `acquireToken` yields
`TokenRefreshRequired` and a RefreshToken is resolved from the store, the
refresh collaborator is invoked exactly once, with the refresh request
made of the original request fields plus the cached refresh token secret,
the request's authentication scheme, and the `HOME_ACCOUNT_ID` CCS
credential built from the account's `homeAccountId`. -/
theorem C8_theorem (cfg : Config) (now : Nat) (req : SilentFlowRequest)
    (collab : RefreshCollaborator) (w : World) (acct : AccountInfo)
    (rt : RefreshTokenEntity)
    (hacct : req.account = some acct)
    (hcached : (acquireCachedToken cfg now req w).2 = .error .tokenRefreshRequired)
    (hrt : getRefreshToken w.store cfg acct = some rt) :
    ((acquireToken cfg now req collab w).1).refreshCalls
        = w.refreshCalls ++ [buildRefreshRequest req acct rt] ∧
    (buildRefreshRequest req acct rt).refreshToken = rt.secret ∧
    (buildRefreshRequest req acct rt).scopes = req.scopes ∧
    (buildRefreshRequest req acct rt).authority = req.authority ∧
    (buildRefreshRequest req acct rt).correlationId = req.correlationId ∧
    (buildRefreshRequest req acct rt).claims = req.claims ∧
    (buildRefreshRequest req acct rt).authenticationScheme
        = req.authenticationScheme ∧
    (buildRefreshRequest req acct rt).ccsCredential
        = { credential := acct.homeAccountId,
            kind := CcsCredentialType.homeAccountId } := by
  have heq := acquireCachedToken_error_eq cfg now req w _ hcached
  refine ⟨?_, rfl, rfl, rfl, rfl, rfl, rfl, rfl⟩
  unfold acquireToken
  rw [heq]
  show ((acquireTokenFrom cfg req collab w (.error .tokenRefreshRequired)).1).refreshCalls = _
  unfold acquireTokenFrom
  rw [hacct]
  dsimp only
  rw [hrt]
  dsimp only
  cases hc : collab (buildRefreshRequest req acct rt) with
  | ok resp => rfl
  | error e => rfl

/-- Claim C8 witness: the concrete forced-refresh request logs exactly the
expected refresh call carrying the cached refresh token secret. -/
theorem C8_witness :
    ((acquireToken cfgW 1000 { reqW with forceRefresh := true } collabFail wW).1).refreshCalls
      = [buildRefreshRequest { reqW with forceRefresh := true } acctW rtW] ∧
    (buildRefreshRequest { reqW with forceRefresh := true } acctW rtW).refreshToken
      = rtW.secret := by
  have h := C8_theorem cfgW 1000 { reqW with forceRefresh := true } collabFail wW
    acctW rtW rfl (by decide) (by decide)
  exact ⟨h.1.trans rfl, h.2.1⟩

/-! ### Claim C9 -/

/-- Claim C9: the engine never deletes store entities — `acquireCachedToken`
returns the store exactly as it was for every request and store, and
`acquireToken` only adds or overwrites entities through the write-back of
a successful refresh, so every entity key present before the call is still
present after it. -/
theorem C9_theorem :
    (∀ cfg now req w, ((acquireCachedToken cfg now req w).1).store = w.store) ∧
    (∀ cfg now req collab w,
      storePreserves w.store ((acquireToken cfg now req collab w).1).store) :=
  ⟨fun cfg now req w => (acquireCachedToken_frame cfg now req w).1,
   fun cfg now req collab w => acquireToken_storePreserves cfg now req collab w⟩

/-- Claim C9 witness: on the concrete world, the cached call leaves the
store untouched and the forced-refresh call preserves every entity key. -/
theorem C9_witness :
    ((acquireCachedToken cfgW 1000 reqW wW).1).store = wW.store ∧
    storePreserves wW.store
      ((acquireToken cfgW 1000 { reqW with forceRefresh := true } collabFail wW).1).store :=
  ⟨C9_theorem.1 cfgW 1000 reqW wW,
   C9_theorem.2 cfgW 1000 { reqW with forceRefresh := true } collabFail wW⟩

/-- Claim C10 witness: a redirect inside an iframe without the allowance
throws `redirectInIframe`, and a popup in the same window does not. -/
theorem C10_witness :
    blockRedirectInIframe ⟨true⟩ .redirect false = .error .redirectInIframe ∧
    blockRedirectInIframe ⟨true⟩ .popup false = .ok () :=
  ⟨(C10_theorem ⟨true⟩ .redirect false).1.mpr ⟨rfl, rfl, rfl⟩,
   (C10_theorem ⟨true⟩ .popup false).2.mpr (fun h => by cases h.1)⟩
